import Mathlib

set_option maxHeartbeats 1000000
set_option maxRecDepth 10000

/-!
Shallow embedding of the L3GD20 gyroscope driver (src/src/lib.rs).

Bytes are modelled as `Nat` with explicit truncation (`% 256`, `% 65536`)
wherever the Rust `u8`/`u16` arithmetic truncates.  The SPI bus and the
chip-select pin, which the driver receives from its environment, are modelled
by an explicit environment (`SpiEnv`) of fallible transfer/write functions and
a `DriverState` that records the chip-select level together with a trace of
bus events in the order the driver performs them.  `mem::uninitialized()` in
`read_registers` is modelled by an explicit `junk` parameter holding the
arbitrary prior contents of the transfer buffer.  Rust functions that can
fail return `Except E`, mirroring `Result<_, E>`; the `unreachable!()` arms
of the `from_u8` decoders are modelled as `none`.
-/

deriving instance DecidableEq for Except

/-- Read flag of the SPI control byte: bit 7 set (`const READ: u8 = 1 << 7`). -/
def READ : Nat := 1 <<< 7

/-- Write flag of the SPI control byte: bit 7 clear (`const WRITE: u8 = 0 << 7`). -/
def WRITE : Nat := 0 <<< 7

/-- Burst flag of the SPI control byte: bit 6 set (`const MULTI: u8 = 1 << 6`). -/
def MULTI : Nat := 1 <<< 6

/-- Single-register flag: bit 6 clear (`const SINGLE: u8 = 0 << 6`). -/
def SINGLE : Nat := 0 <<< 6

/-- Register addresses of the sensor, as in `enum Register`. -/
inductive Register where
  | WHO_AM_I
  | CTRL_REG1
  | CTRL_REG2
  | CTRL_REG3
  | CTRL_REG4
  | CTRL_REG5
  | REFERENCE
  | OUT_TEMP
  | STATUS_REG
  | OUT_X_L
  | OUT_X_H
  | OUT_Y_L
  | OUT_Y_H
  | OUT_Z_L
  | OUT_Z_H
  | FIFO_CTRL_REG
  | FIFO_SRC_REG
  | INT1_CFG
  | INT1_SRC
  | INT1_TSH_XH
  | INT1_TSH_XL
  | INT1_TSH_YH
  | INT1_TSH_YL
  | INT1_TSH_ZH
  | INT1_TSH_ZL
  | INT1_DURATION
deriving DecidableEq

/-- `Register::addr`, the datasheet address of each register. -/
def Register.addr : Register → Nat
  | .WHO_AM_I => 0x0F
  | .CTRL_REG1 => 0x20
  | .CTRL_REG2 => 0x21
  | .CTRL_REG3 => 0x22
  | .CTRL_REG4 => 0x23
  | .CTRL_REG5 => 0x24
  | .REFERENCE => 0x25
  | .OUT_TEMP => 0x26
  | .STATUS_REG => 0x27
  | .OUT_X_L => 0x28
  | .OUT_X_H => 0x29
  | .OUT_Y_L => 0x2A
  | .OUT_Y_H => 0x2B
  | .OUT_Z_L => 0x2C
  | .OUT_Z_H => 0x2D
  | .FIFO_CTRL_REG => 0x2E
  | .FIFO_SRC_REG => 0x2F
  | .INT1_CFG => 0x30
  | .INT1_SRC => 0x31
  | .INT1_TSH_XH => 0x32
  | .INT1_TSH_XL => 0x33
  | .INT1_TSH_YH => 0x34
  | .INT1_TSH_YL => 0x35
  | .INT1_TSH_ZH => 0x36
  | .INT1_TSH_ZL => 0x37
  | .INT1_DURATION => 0x38

/-- The `BitValue` trait of the source: a configuration type with a field
width, a shift inside its host register, and an unshifted raw value. -/
structure BitValue (α : Type) where
  width : Nat
  shift : Nat
  value : α → Nat

/-- Default `BitValue::mask`: `(1 << width) - 1`, in `u8` arithmetic. -/
def BitValue.mask {α : Type} (bv : BitValue α) : Nat :=
  ((1 <<< bv.width) - 1) % 256

/-- Output data rate variants (`enum Odr`). -/
inductive Odr where
  | Hz95
  | Hz190
  | Hz380
  | Hz760
deriving DecidableEq

/-- Discriminant values of `Odr` (`Hz95 = 0x00`, ..., `Hz760 = 0x03`). -/
def Odr.value : Odr → Nat
  | .Hz95 => 0x00
  | .Hz190 => 0x01
  | .Hz380 => 0x02
  | .Hz760 => 0x03

/-- `impl BitValue for Odr`: width 2, shift 6. -/
def Odr.bitValue : BitValue Odr where
  width := 2
  shift := 6
  value := Odr.value

/-- `Odr::from_u8`: extract the 2-bit field at shift 6 and match it against
the enumerated codes; the `unreachable!()` arm is modelled as `none`. -/
def Odr.from_u8 (b : Nat) : Option Odr :=
  let x := (b >>> Odr.bitValue.shift) &&& Odr.bitValue.mask
  if x = Odr.Hz95.value then some Odr.Hz95
  else if x = Odr.Hz190.value then some Odr.Hz190
  else if x = Odr.Hz380.value then some Odr.Hz380
  else if x = Odr.Hz760.value then some Odr.Hz760
  else none

/-- Full scale selection variants (`enum Scale`). -/
inductive Scale where
  | Dps250
  | Dps500
  | Dps2000
deriving DecidableEq

/-- Discriminant values of `Scale` (`Dps250 = 0x00`, `Dps500 = 0x01`,
`Dps2000 = 0x03`). -/
def Scale.value : Scale → Nat
  | .Dps250 => 0x00
  | .Dps500 => 0x01
  | .Dps2000 => 0x03

/-- `impl BitValue for Scale`: width 2, shift 4. -/
def Scale.bitValue : BitValue Scale where
  width := 2
  shift := 4
  value := Scale.value

/-- `Scale::from_u8`: extract the 2-bit field at shift 4; the raw code `0x02`
is a special case also decoding to `Dps2000`; the `unreachable!()` arm is
modelled as `none`. -/
def Scale.from_u8 (b : Nat) : Option Scale :=
  let x := (b >>> Scale.bitValue.shift) &&& Scale.bitValue.mask
  if x = Scale.Dps250.value then some Scale.Dps250
  else if x = Scale.Dps500.value then some Scale.Dps500
  else if x = Scale.Dps2000.value then some Scale.Dps2000
  else if x = 0x02 then some Scale.Dps2000
  else none

/-- Bandwidth variants (`enum Bandwidth`). -/
inductive Bandwidth where
  | Low
  | Medium
  | High
  | Maximum
deriving DecidableEq

/-- Discriminant values of `Bandwidth` (`Low = 0x00`, ..., `Maximum = 0x03`). -/
def Bandwidth.value : Bandwidth → Nat
  | .Low => 0x00
  | .Medium => 0x01
  | .High => 0x02
  | .Maximum => 0x03

/-- `impl BitValue for Bandwidth`: width 2, shift 4. -/
def Bandwidth.bitValue : BitValue Bandwidth where
  width := 2
  shift := 4
  value := Bandwidth.value

/-- `Bandwidth::from_u8`: extract the 2-bit field at shift 4 and match it
against the enumerated codes; the `unreachable!()` arm is modelled as `none`. -/
def Bandwidth.from_u8 (b : Nat) : Option Bandwidth :=
  let x := (b >>> Bandwidth.bitValue.shift) &&& Bandwidth.bitValue.mask
  if x = Bandwidth.Low.value then some Bandwidth.Low
  else if x = Bandwidth.Medium.value then some Bandwidth.Medium
  else if x = Bandwidth.High.value then some Bandwidth.High
  else if x = Bandwidth.Maximum.value then some Bandwidth.Maximum
  else none

/-- Reinterpret the low 16 bits of a value as a signed 16-bit integer
(the `as i16` cast applied to `lo as u16 + ((hi as u16) << 8)`). -/
def toI16 (u : Nat) : Int :=
  let v := u % 65536
  if v < 32768 then (v : Int) else (v : Int) - 65536

/-- Reinterpret the low 8 bits of a value as a signed 8-bit integer
(the `as i8` cast applied to a `u8`). -/
def toI8 (u : Nat) : Int :=
  let v := u % 256
  if v < 128 then (v : Int) else (v : Int) - 256

/-- XYZ triple of signed 16-bit measurements (`struct I16x3`). -/
structure I16x3 where
  x : Int
  y : Int
  z : Int
deriving DecidableEq

/-- Gyroscope measurements plus temperature (`struct Measurements`). -/
structure Measurements where
  gyro : I16x3
  temp : Int
deriving DecidableEq

/-- One observable action of the driver on its bus and chip-select pin. -/
inductive BusEvent where
  | csLow
  | csHigh
  | transfer (sent : List Nat)
  | busWrite (sent : List Nat)
deriving DecidableEq

/-- Chip-select level plus the trace of bus events performed so far. -/
structure DriverState where
  csHigh : Bool
  trace : List BusEvent
deriving DecidableEq

/-- The environment's SPI peripheral: a full-duplex transfer (returning the
bytes clocked in, or a transport error) and a write-only primitive. -/
structure SpiEnv (E : Type) where
  transfer : List Nat → Except E (List Nat)
  write : List Nat → Except E Unit

/-- `self.cs.set_low()`: drive chip-select low (device selected). -/
def setLow (s : DriverState) : DriverState :=
  { csHigh := false, trace := s.trace ++ [BusEvent.csLow] }

/-- `self.cs.set_high()`: drive chip-select high (device deselected). -/
def setHigh (s : DriverState) : DriverState :=
  { csHigh := true, trace := s.trace ++ [BusEvent.csHigh] }

/-- The payloads of the write transactions recorded in a trace. -/
def writtenBytes (t : List BusEvent) : List (List Nat) :=
  t.filterMap fun e =>
    match e with
    | BusEvent.busWrite b => some b
    | _ => none

namespace L3gd20

/-- `L3gd20::read_register`: lower chip-select, exchange the two-byte buffer
`[addr | SINGLE | READ, 0]`, raise chip-select, return the second received
byte.  On a transport error the `?` operator returns before `set_high`. -/
def read_register {E : Type} (env : SpiEnv E) (reg : Register) (s : DriverState) :
    Except E Nat × DriverState :=
  let s1 := setLow s
  let buffer := [reg.addr ||| SINGLE ||| READ, 0]
  let s2 := { s1 with trace := s1.trace ++ [BusEvent.transfer buffer] }
  match env.transfer buffer with
  | Except.error e => (Except.error e, s2)
  | Except.ok rcv => (Except.ok (rcv.getD 1 0), setHigh s2)

/-- `L3gd20::read_registers`: lower chip-select, build the burst buffer from
uninitialized memory (`junk`), overwrite position 0 with
`addr | MULTI | READ`, exchange it, raise chip-select, return the received
buffer.  Positions 1.. keep the uninitialized contents when sent.  On a
transport error the `?` operator returns before `set_high`. -/
def read_registers {E : Type} (env : SpiEnv E) (reg : Register) (junk : List Nat)
    (s : DriverState) : Except E (List Nat) × DriverState :=
  let s1 := setLow s
  let buffer := (reg.addr ||| MULTI ||| READ) :: junk.drop 1
  let s2 := { s1 with trace := s1.trace ++ [BusEvent.transfer buffer] }
  match env.transfer buffer with
  | Except.error e => (Except.error e, s2)
  | Except.ok rcv => (Except.ok rcv, setHigh s2)

/-- `L3gd20::write_register`: lower chip-select, write the two-byte buffer
`[addr | SINGLE | WRITE, byte]`, raise chip-select.  On a transport error the
`?` operator returns before `set_high`. -/
def write_register {E : Type} (env : SpiEnv E) (reg : Register) (byte : Nat)
    (s : DriverState) : Except E Unit × DriverState :=
  let s1 := setLow s
  let buffer := [reg.addr ||| SINGLE ||| WRITE, byte]
  let s2 := { s1 with trace := s1.trace ++ [BusEvent.busWrite buffer] }
  match env.write buffer with
  | Except.error e => (Except.error e, s2)
  | Except.ok _ => (Except.ok (), setHigh s2)

/-- `L3gd20::new`: construct the driver and power up, enabling all axes, by
one write of `0b00_00_1_111` to `CTRL_REG1`; on failure no handle is
returned. -/
def new {E : Type} (env : SpiEnv E) (s : DriverState) :
    Except E Unit × DriverState :=
  match write_register env Register.CTRL_REG1 0b00001111 s with
  | (Except.error e, s1) => (Except.error e, s1)
  | (Except.ok _, s1) => (Except.ok (), s1)

/-- `L3gd20::all`: burst-read nine bytes starting at `OUT_TEMP` and decode
temperature (byte 1) and the axes (byte pairs (3,4), (5,6), (7,8)). -/
def all {E : Type} (env : SpiEnv E) (junk : List Nat) (s : DriverState) :
    Except E Measurements × DriverState :=
  match read_registers env Register.OUT_TEMP junk s with
  | (Except.error e, s1) => (Except.error e, s1)
  | (Except.ok bytes, s1) =>
    (Except.ok
      { gyro :=
          { x := toI16 ((bytes.getD 3 0) % 256 + (((bytes.getD 4 0) % 256) <<< 8))
            y := toI16 ((bytes.getD 5 0) % 256 + (((bytes.getD 6 0) % 256) <<< 8))
            z := toI16 ((bytes.getD 7 0) % 256 + (((bytes.getD 8 0) % 256) <<< 8)) }
        temp := toI8 (bytes.getD 1 0) }, s1)

/-- `L3gd20::gyro`: burst-read seven bytes starting at `OUT_X_L` and decode
the axes from byte pairs (1,2), (3,4), (5,6). -/
def gyro {E : Type} (env : SpiEnv E) (junk : List Nat) (s : DriverState) :
    Except E I16x3 × DriverState :=
  match read_registers env Register.OUT_X_L junk s with
  | (Except.error e, s1) => (Except.error e, s1)
  | (Except.ok bytes, s1) =>
    (Except.ok
      { x := toI16 ((bytes.getD 1 0) % 256 + (((bytes.getD 2 0) % 256) <<< 8))
        y := toI16 ((bytes.getD 3 0) % 256 + (((bytes.getD 4 0) % 256) <<< 8))
        z := toI16 ((bytes.getD 5 0) % 256 + (((bytes.getD 6 0) % 256) <<< 8)) }, s1)

/-- `L3gd20::change_config`: read the register, replace the field selected by
the `BitValue` mask/shift, write the result back.  Carried out in `u8`
arithmetic, modelled with explicit `% 256` and `255 ^^^ mask` for the `u8`
bitwise complement. -/
def change_config {E α : Type} (env : SpiEnv E) (reg : Register) (bv : BitValue α)
    (bits : α) (s : DriverState) : Except E Unit × DriverState :=
  let mask := (bv.mask <<< bv.shift) % 256
  let bitsv := ((bv.value bits <<< bv.shift) % 256) &&& mask
  match read_register env reg s with
  | (Except.error e, s1) => (Except.error e, s1)
  | (Except.ok current, s1) =>
    let masked := current &&& (255 ^^^ mask)
    let new_reg := masked ||| bitsv
    write_register env reg new_reg s1

/-- `L3gd20::set_odr`: configure the output data rate in `CTRL_REG1`. -/
def set_odr {E : Type} (env : SpiEnv E) (odr : Odr) (s : DriverState) :
    Except E Unit × DriverState :=
  change_config env Register.CTRL_REG1 Odr.bitValue odr s

/-- `L3gd20::set_bandwidth`: configure the bandwidth in `CTRL_REG1`. -/
def set_bandwidth {E : Type} (env : SpiEnv E) (bw : Bandwidth) (s : DriverState) :
    Except E Unit × DriverState :=
  change_config env Register.CTRL_REG1 Bandwidth.bitValue bw s

/-- `L3gd20::set_scale`: configure the full scale selection in `CTRL_REG4`. -/
def set_scale {E : Type} (env : SpiEnv E) (scale : Scale) (s : DriverState) :
    Except E Unit × DriverState :=
  change_config env Register.CTRL_REG4 Scale.bitValue scale s

end L3gd20

/-- The pure byte transformation performed by `change_config`: the bits of
`current` outside the shifted mask are kept, the field is replaced by the
shifted raw value. -/
def rmwByte {α : Type} (bv : BitValue α) (bits : α) (current : Nat) : Nat :=
  let mask := (bv.mask <<< bv.shift) % 256
  let bitsv := ((bv.value bits <<< bv.shift) % 256) &&& mask
  (current &&& (255 ^^^ mask)) ||| bitsv

/-- An environment whose transfer and write primitives always fail. -/
def failEnvU : SpiEnv Unit where
  transfer := fun _ => Except.error ()
  write := fun _ => Except.error ()

/-- An environment that echoes the sent buffer back and accepts writes. -/
def echoEnvU : SpiEnv Unit where
  transfer := fun b => Except.ok b
  write := fun _ => Except.ok ()

/-- A nine-byte response with x-low 0x34 at index 2 and x-high 0x12 at
index 3, exercising the axis-byte indexing of the bundle decode. -/
def cexBytes : List Nat := [0, 0, 0x34, 0x12, 0, 0, 0, 0, 0]

/-- An environment answering every transfer with `cexBytes`. -/
def cexEnv : SpiEnv Unit where
  transfer := fun _ => Except.ok cexBytes
  write := fun _ => Except.ok ()

/-- Initial driver state: chip-select high, empty trace. -/
def s0 : DriverState where
  csHigh := true
  trace := []

/-- Modelled from the claim's words, for comparison with the code's decode:
byte 0 is the control echo (discarded), byte 1 is the signed temperature, and
bytes 2 through 8 decode as three little-endian signed 16-bit axis pairs,
offset by one index relative to the gyro-only decode (x from bytes (2,3),
y from (4,5), z from (6,7)). -/
def allDecodeClaimed (bytes : List Nat) : Measurements where
  gyro :=
    { x := toI16 ((bytes.getD 2 0) % 256 + (((bytes.getD 3 0) % 256) <<< 8))
      y := toI16 ((bytes.getD 4 0) % 256 + (((bytes.getD 5 0) % 256) <<< 8))
      z := toI16 ((bytes.getD 6 0) % 256 + (((bytes.getD 7 0) % 256) <<< 8)) }
  temp := toI8 (bytes.getD 1 0)

/-- Case analysis of `read_register`: the full result and trace as a function
of the outcome of the bus transfer. -/
theorem read_register_eq {E : Type} (env : SpiEnv E) (reg : Register) (s : DriverState) :
    L3gd20.read_register env reg s =
      match env.transfer [reg.addr ||| SINGLE ||| READ, 0] with
      | Except.error e =>
        (Except.error e,
          { csHigh := false
            trace := s.trace ++ [BusEvent.csLow,
              BusEvent.transfer [reg.addr ||| SINGLE ||| READ, 0]] })
      | Except.ok rcv =>
        (Except.ok (rcv.getD 1 0),
          { csHigh := true
            trace := s.trace ++ [BusEvent.csLow,
              BusEvent.transfer [reg.addr ||| SINGLE ||| READ, 0],
              BusEvent.csHigh] }) := by
  unfold L3gd20.read_register setLow setHigh
  cases h : env.transfer [reg.addr ||| SINGLE ||| READ, 0] <;> simp [h]

/-- Case analysis of `read_registers`: the full result and trace as a
function of the outcome of the bus transfer. -/
theorem read_registers_eq {E : Type} (env : SpiEnv E) (reg : Register)
    (junk : List Nat) (s : DriverState) :
    L3gd20.read_registers env reg junk s =
      match env.transfer ((reg.addr ||| MULTI ||| READ) :: junk.tail) with
      | Except.error e =>
        (Except.error e,
          { csHigh := false
            trace := s.trace ++ [BusEvent.csLow,
              BusEvent.transfer ((reg.addr ||| MULTI ||| READ) :: junk.tail)] })
      | Except.ok rcv =>
        (Except.ok rcv,
          { csHigh := true
            trace := s.trace ++ [BusEvent.csLow,
              BusEvent.transfer ((reg.addr ||| MULTI ||| READ) :: junk.tail),
              BusEvent.csHigh] }) := by
  unfold L3gd20.read_registers setLow setHigh
  cases h : env.transfer ((reg.addr ||| MULTI ||| READ) :: junk.tail) <;>
    simp [List.drop_one, h]

/-- Case analysis of `write_register`: the full result and trace as a
function of the outcome of the bus write. -/
theorem write_register_eq {E : Type} (env : SpiEnv E) (reg : Register) (byte : Nat)
    (s : DriverState) :
    L3gd20.write_register env reg byte s =
      match env.write [reg.addr ||| SINGLE ||| WRITE, byte] with
      | Except.error e =>
        (Except.error e,
          { csHigh := false
            trace := s.trace ++ [BusEvent.csLow,
              BusEvent.busWrite [reg.addr ||| SINGLE ||| WRITE, byte]] })
      | Except.ok _ =>
        (Except.ok (),
          { csHigh := true
            trace := s.trace ++ [BusEvent.csLow,
              BusEvent.busWrite [reg.addr ||| SINGLE ||| WRITE, byte],
              BusEvent.csHigh] }) := by
  unfold L3gd20.write_register setLow setHigh
  cases h : env.write [reg.addr ||| SINGLE ||| WRITE, byte] <;> simp [h]

/-- C1 is refuted here: with an SPI transfer that reports a transport error,
`read_register` returns that error with chip-select still low (selected), so
not every exit path raises chip-select. -/
theorem read_register_error_leaves_cs_low_cex :
    (L3gd20.read_register failEnvU Register.WHO_AM_I s0).1 = Except.error () ∧
    (L3gd20.read_register failEnvU Register.WHO_AM_I s0).2.csHigh = false := by
  refine ⟨?_, ?_⟩ <;> rfl

/-- C1 (amended): every register-access operation raises chip-select before
returning on the success path, but on the path where the bus transfer or bus
write returns a transport error the early return skips the raise, and the
operation returns the error with chip-select still in the low/selected
state. -/
theorem cs_raised_only_on_success_paths {E : Type} (env : SpiEnv E) (reg : Register)
    (junk : List Nat) (byte : Nat) (s : DriverState) :
    (∀ rcv, env.transfer [reg.addr ||| SINGLE ||| READ, 0] = Except.ok rcv →
      (L3gd20.read_register env reg s).2.csHigh = true) ∧
    (∀ e, env.transfer [reg.addr ||| SINGLE ||| READ, 0] = Except.error e →
      (L3gd20.read_register env reg s).1 = Except.error e ∧
      (L3gd20.read_register env reg s).2.csHigh = false) ∧
    (∀ rcv, env.transfer ((reg.addr ||| MULTI ||| READ) :: junk.tail) = Except.ok rcv →
      (L3gd20.read_registers env reg junk s).2.csHigh = true) ∧
    (∀ e, env.transfer ((reg.addr ||| MULTI ||| READ) :: junk.tail) = Except.error e →
      (L3gd20.read_registers env reg junk s).1 = Except.error e ∧
      (L3gd20.read_registers env reg junk s).2.csHigh = false) ∧
    (∀ u, env.write [reg.addr ||| SINGLE ||| WRITE, byte] = Except.ok u →
      (L3gd20.write_register env reg byte s).2.csHigh = true) ∧
    (∀ e, env.write [reg.addr ||| SINGLE ||| WRITE, byte] = Except.error e →
      (L3gd20.write_register env reg byte s).1 = Except.error e ∧
      (L3gd20.write_register env reg byte s).2.csHigh = false) := by
  refine ⟨?_, ?_, ?_, ?_, ?_, ?_⟩ <;> intro a ha <;>
    simp [read_register_eq, read_registers_eq, write_register_eq, ha]

/-- Concrete instance of the amended C1 theorem: on an echoing bus every
operation ends with chip-select high; on a failing bus every operation
returns the transport error with chip-select low. -/
theorem cs_raised_only_on_success_paths_witness :
    (L3gd20.read_register echoEnvU Register.WHO_AM_I s0).2.csHigh = true ∧
    ((L3gd20.read_register failEnvU Register.WHO_AM_I s0).1 = Except.error () ∧
      (L3gd20.read_register failEnvU Register.WHO_AM_I s0).2.csHigh = false) ∧
    (L3gd20.read_registers echoEnvU Register.OUT_TEMP (List.replicate 9 0) s0).2.csHigh = true ∧
    ((L3gd20.read_registers failEnvU Register.OUT_TEMP (List.replicate 9 0) s0).1 =
        Except.error () ∧
      (L3gd20.read_registers failEnvU Register.OUT_TEMP (List.replicate 9 0) s0).2.csHigh =
        false) ∧
    (L3gd20.write_register echoEnvU Register.CTRL_REG1 15 s0).2.csHigh = true ∧
    ((L3gd20.write_register failEnvU Register.CTRL_REG1 15 s0).1 = Except.error () ∧
      (L3gd20.write_register failEnvU Register.CTRL_REG1 15 s0).2.csHigh = false) := by
  have T := cs_raised_only_on_success_paths echoEnvU Register.WHO_AM_I
    (List.replicate 9 0) 15 s0
  have F := cs_raised_only_on_success_paths failEnvU Register.WHO_AM_I
    (List.replicate 9 0) 15 s0
  have T2 := cs_raised_only_on_success_paths echoEnvU Register.OUT_TEMP
    (List.replicate 9 0) 15 s0
  have F2 := cs_raised_only_on_success_paths failEnvU Register.OUT_TEMP
    (List.replicate 9 0) 15 s0
  have T3 := cs_raised_only_on_success_paths echoEnvU Register.CTRL_REG1
    (List.replicate 9 0) 15 s0
  have F3 := cs_raised_only_on_success_paths failEnvU Register.CTRL_REG1
    (List.replicate 9 0) 15 s0
  exact ⟨T.1 _ rfl, F.2.1 () rfl, T2.2.2.1 _ rfl, F2.2.2.2.1 () rfl,
    T3.2.2.2.2.1 () rfl, F3.2.2.2.2.2 () rfl⟩

/-- C2 is refuted here: on a scripted nine-byte burst response carrying bytes
0x34 at index 2 and 0x12 at index 3, the driver decodes x from indices 3 and
4, yielding 0x0012 = 18, and not 0x1234 = 4660 as the claimed offset-by-one
decode over bytes 2 through 8 would require. -/
theorem all_axis_offset_cex :
    (L3gd20.all cexEnv (List.replicate 9 0) s0).1 =
      Except.ok { gyro := { x := 18, y := 0, z := 0 }, temp := 0 } ∧
    allDecodeClaimed cexBytes = { gyro := { x := 4660, y := 0, z := 0 }, temp := 0 } ∧
    (L3gd20.all cexEnv (List.replicate 9 0) s0).1 ≠
      Except.ok (allDecodeClaimed cexBytes) := by
  refine ⟨?_, ?_, ?_⟩ <;> decide

/-- C2 (amended): the measurement-bundle read performs one nine-byte burst
starting at the temperature register; byte 0 is the control echo and is
discarded, byte 1 is the signed 8-bit temperature, byte 2 (the status
register, which sits between the temperature and axis registers) is also
discarded, and bytes 3 through 8 decode as the three little-endian signed
16-bit axis pairs (x, y, z) — offset by two indices relative to the
gyro-only decode. -/
theorem all_burst_decode {E : Type} (env : SpiEnv E) (junk : List Nat)
    (s : DriverState) (rcv : List Nat)
    (hlen : junk.length = 9)
    (h : env.transfer ((Register.OUT_TEMP.addr ||| MULTI ||| READ) :: junk.tail) =
      Except.ok rcv) :
    (L3gd20.all env junk s).1 = Except.ok
      { gyro :=
          { x := toI16 ((rcv.getD 3 0) % 256 + (((rcv.getD 4 0) % 256) <<< 8))
            y := toI16 ((rcv.getD 5 0) % 256 + (((rcv.getD 6 0) % 256) <<< 8))
            z := toI16 ((rcv.getD 7 0) % 256 + (((rcv.getD 8 0) % 256) <<< 8)) }
        temp := toI8 (rcv.getD 1 0) } ∧
    ((Register.OUT_TEMP.addr ||| MULTI ||| READ) :: junk.tail).length = 9 ∧
    (L3gd20.all env junk s).2.trace = s.trace ++
      [BusEvent.csLow,
        BusEvent.transfer ((Register.OUT_TEMP.addr ||| MULTI ||| READ) :: junk.tail),
        BusEvent.csHigh] := by
  unfold L3gd20.all
  rw [read_registers_eq, h]
  refine ⟨rfl, ?_, rfl⟩
  simp [hlen]

/-- Concrete instance of the amended C2 theorem at the scripted nine-byte
response `cexBytes`. -/
theorem all_burst_decode_witness :
    (L3gd20.all cexEnv (List.replicate 9 0) s0).1 = Except.ok
      { gyro :=
          { x := toI16 ((cexBytes.getD 3 0) % 256 + (((cexBytes.getD 4 0) % 256) <<< 8))
            y := toI16 ((cexBytes.getD 5 0) % 256 + (((cexBytes.getD 6 0) % 256) <<< 8))
            z := toI16 ((cexBytes.getD 7 0) % 256 + (((cexBytes.getD 8 0) % 256) <<< 8)) }
        temp := toI8 (cexBytes.getD 1 0) } ∧
    ((Register.OUT_TEMP.addr ||| MULTI ||| READ) :: (List.replicate 9 0 : List Nat).tail).length
      = 9 ∧
    (L3gd20.all cexEnv (List.replicate 9 0) s0).2.trace = s0.trace ++
      [BusEvent.csLow,
        BusEvent.transfer
          ((Register.OUT_TEMP.addr ||| MULTI ||| READ) :: (List.replicate 9 0 : List Nat).tail),
        BusEvent.csHigh] :=
  all_burst_decode cexEnv (List.replicate 9 0) s0 cexBytes (by decide) rfl

/-- C3 is refuted here: burst-reading with prior (uninitialized) buffer
contents 7 at every position sends a buffer whose byte at position 1 is 7,
not 0: the remainder of the burst buffer is not zero-filled before the
transfer is invoked. -/
theorem burst_buffer_not_zero_filled_cex :
    ∃ sent,
      (L3gd20.read_registers echoEnvU Register.OUT_TEMP (List.replicate 9 7) s0).2.trace =
        [BusEvent.csLow, BusEvent.transfer sent, BusEvent.csHigh] ∧
      sent.getD 0 0 = Register.OUT_TEMP.addr ||| MULTI ||| READ ∧
      sent.getD 1 0 ≠ 0 := by
  refine ⟨(Register.OUT_TEMP.addr ||| MULTI ||| READ) :: List.replicate 8 7, ?_, ?_, ?_⟩ <;>
    decide

/-- C3 (amended): for a burst read the transfer buffer holds the control byte
(the register address OR'd with the MULTI and READ flags) in position 0,
while the remaining positions keep the buffer's prior, uninitialized
contents — the code does not zero-fill them before the bus transfer is
invoked. -/
theorem burst_buffer_framing {E : Type} (env : SpiEnv E) (reg : Register)
    (junk : List Nat) (s : DriverState) :
    ((reg.addr ||| MULTI ||| READ) :: junk.tail).getD 0 0 = reg.addr ||| MULTI ||| READ ∧
    ((reg.addr ||| MULTI ||| READ) :: junk.tail).tail = junk.tail ∧
    ((L3gd20.read_registers env reg junk s).2.trace =
        s.trace ++ [BusEvent.csLow,
          BusEvent.transfer ((reg.addr ||| MULTI ||| READ) :: junk.tail)] ∨
      (L3gd20.read_registers env reg junk s).2.trace =
        s.trace ++ [BusEvent.csLow,
          BusEvent.transfer ((reg.addr ||| MULTI ||| READ) :: junk.tail),
          BusEvent.csHigh]) := by
  refine ⟨rfl, rfl, ?_⟩
  rw [read_registers_eq]
  cases env.transfer ((reg.addr ||| MULTI ||| READ) :: junk.tail) <;> simp

/-- The payload written by `write_register` is appended to the write
transactions of the trace. -/
theorem writtenBytes_write_register {E : Type} (env : SpiEnv E) (reg : Register)
    (byte : Nat) (s : DriverState) :
    writtenBytes (L3gd20.write_register env reg byte s).2.trace =
      writtenBytes s.trace ++ [[reg.addr ||| SINGLE ||| WRITE, byte]] := by
  rw [write_register_eq]
  cases env.write [reg.addr ||| SINGLE ||| WRITE, byte] <;>
    simp [writtenBytes, List.filterMap_append]

/-- C4: each configuration setter performs a read-modify-write of its host
register: given a successful read returning the current byte, the byte
written back is `rmwByte` of it, and every bit outside the shifted field mask
in that byte equals the corresponding bit of the byte just read; in
particular, applying the bandwidth update and then the data-rate update to
any register byte leaves both configured 2-bit fields decodable to their set
values and the low (axis-enable) nibble unchanged. -/
theorem change_config_read_modify_write {E : Type} (env : SpiEnv E) (reg : Register)
    (s : DriverState) :
    (∀ (α : Type) (bv : BitValue α) (v : α) (rcv : List Nat),
      env.transfer [reg.addr ||| SINGLE ||| READ, 0] = Except.ok rcv →
      writtenBytes (L3gd20.change_config env reg bv v s).2.trace =
        writtenBytes s.trace ++
          [[reg.addr ||| SINGLE ||| WRITE, rmwByte bv v (rcv.getD 1 0)]]) ∧
    (∀ (α : Type) (bv : BitValue α) (v : α) (current i : Nat),
      i < 8 → ((bv.mask <<< bv.shift) % 256).testBit i = false →
      (rmwByte bv v current).testBit i = current.testBit i) ∧
    (∀ (b : Fin 256) (bw : Bandwidth) (odr : Odr),
      Odr.from_u8 (rmwByte Odr.bitValue odr (rmwByte Bandwidth.bitValue bw b.val)) =
        some odr ∧
      Bandwidth.from_u8 (rmwByte Odr.bitValue odr (rmwByte Bandwidth.bitValue bw b.val)) =
        some bw ∧
      rmwByte Odr.bitValue odr (rmwByte Bandwidth.bitValue bw b.val) &&& 15 =
        b.val &&& 15) := by
  refine ⟨?_, ?_, ?_⟩
  · intro α bv v rcv h
    unfold L3gd20.change_config
    rw [read_register_eq, h]
    show writtenBytes (L3gd20.write_register env reg (rmwByte bv v (rcv.getD 1 0))
      { csHigh := true
        trace := s.trace ++ [BusEvent.csLow,
          BusEvent.transfer [reg.addr ||| SINGLE ||| READ, 0],
          BusEvent.csHigh] }).2.trace = _
    rw [writtenBytes_write_register]
    simp [writtenBytes, List.filterMap_append]
  · intro α bv v current i hi hm
    have h8 : (255 : Nat).testBit i = true := by
      rw [show (255 : Nat) = 2 ^ 8 - 1 from rfl, Nat.testBit_two_pow_sub_one]
      exact decide_eq_true hi
    unfold rmwByte
    simp [Nat.testBit_lor, Nat.testBit_land, Nat.testBit_xor, hm, h8]
  · intro b bw odr
    cases bw <;> cases odr <;> revert b <;> decide

/-- Concrete instance of the C4 theorem: on an echoing bus, setting the data
rate on `CTRL_REG1` issues exactly one write of the read-modify-write byte;
bit 0 outside the data-rate mask is preserved; and the bandwidth-then-odr
composition on the byte 15 keeps both fields and the low nibble. -/
theorem change_config_read_modify_write_witness :
    writtenBytes
        (L3gd20.change_config echoEnvU Register.CTRL_REG1 Odr.bitValue Odr.Hz380 s0).2.trace =
      writtenBytes s0.trace ++
        [[Register.CTRL_REG1.addr ||| SINGLE ||| WRITE,
          rmwByte Odr.bitValue Odr.Hz380
            (([Register.CTRL_REG1.addr ||| SINGLE ||| READ, 0] : List Nat).getD 1 0)]] ∧
    (rmwByte Odr.bitValue Odr.Hz380 15).testBit 0 = (15 : Nat).testBit 0 ∧
    (Odr.from_u8 (rmwByte Odr.bitValue Odr.Hz380
        (rmwByte Bandwidth.bitValue Bandwidth.High (15 : Fin 256).val)) = some Odr.Hz380 ∧
      Bandwidth.from_u8 (rmwByte Odr.bitValue Odr.Hz380
        (rmwByte Bandwidth.bitValue Bandwidth.High (15 : Fin 256).val)) = some Bandwidth.High ∧
      rmwByte Odr.bitValue Odr.Hz380
          (rmwByte Bandwidth.bitValue Bandwidth.High (15 : Fin 256).val) &&& 15 =
        (15 : Fin 256).val &&& 15) := by
  have T := change_config_read_modify_write echoEnvU Register.CTRL_REG1 s0
  exact ⟨T.1 Odr Odr.bitValue Odr.Hz380 _ rfl,
    T.2.1 Odr Odr.bitValue Odr.Hz380 15 0 (by decide) (by decide),
    T.2.2 15 Bandwidth.High Odr.Hz380⟩

/-- C5: for every enumerated data-rate, bandwidth, and scale variant,
encoding the variant into its masked field at its shift within an arbitrary
register byte and then decoding that same field back yields the variant
again, regardless of the other bits of the register byte. -/
theorem config_encode_decode_roundtrip :
    (∀ (b : Fin 256) (v : Odr),
      Odr.from_u8 (rmwByte Odr.bitValue v b.val) = some v) ∧
    (∀ (b : Fin 256) (v : Bandwidth),
      Bandwidth.from_u8 (rmwByte Bandwidth.bitValue v b.val) = some v) ∧
    (∀ (b : Fin 256) (v : Scale),
      Scale.from_u8 (rmwByte Scale.bitValue v b.val) = some v) := by
  refine ⟨?_, ?_, ?_⟩ <;> intro b v <;> cases v <;> revert b <;> decide

/-- C6: decoding the full-scale sensitivity field of any register byte whose
2-bit field at shift 4 is the raw code 2 or the raw code 3 yields the
2000-degrees-per-second variant in both cases. -/
theorem scale_quirk_decode (b : Fin 256)
    (h : (b.val >>> 4) &&& 3 = 2 ∨ (b.val >>> 4) &&& 3 = 3) :
    Scale.from_u8 b.val = some Scale.Dps2000 := by
  revert b
  decide

/-- Concrete instance of the C6 theorem at the register bytes 0x20 (field
code 2) and 0x30 (field code 3). -/
theorem scale_quirk_decode_witness :
    Scale.from_u8 (0x20 : Fin 256).val = some Scale.Dps2000 ∧
    Scale.from_u8 (0x30 : Fin 256).val = some Scale.Dps2000 :=
  ⟨scale_quirk_decode 0x20 (Or.inl (by decide)),
    scale_quirk_decode 0x30 (Or.inr (by decide))⟩

/-- C7: the three configuration-field decoders are total over every possible
register byte: for every input the extracted 2-bit field matches one of the
enumerated codes (or, for scale, the documented quirk code), so the branch
modelling the `unreachable!()` arm is never taken. -/
theorem from_u8_decoders_total :
    ∀ b : Fin 256,
      (Odr.from_u8 b.val).isSome = true ∧
      (Bandwidth.from_u8 b.val).isSome = true ∧
      (Scale.from_u8 b.val).isSome = true := by
  decide

/-- C8: a single-register read lowers chip-select, exchanges the two-byte
buffer whose first byte is the address OR'd with READ (bit 7 set) and SINGLE
(bit 6 clear) and whose second byte is 0, raises chip-select, and returns the
second received byte. -/
theorem read_register_single_frame {E : Type} (env : SpiEnv E) (reg : Register)
    (s : DriverState) (rcv : List Nat)
    (h : env.transfer [reg.addr ||| SINGLE ||| READ, 0] = Except.ok rcv) :
    L3gd20.read_register env reg s =
      (Except.ok (rcv.getD 1 0),
        { csHigh := true
          trace := s.trace ++ [BusEvent.csLow,
            BusEvent.transfer [reg.addr ||| SINGLE ||| READ, 0],
            BusEvent.csHigh] }) ∧
    (reg.addr ||| SINGLE ||| READ).testBit 7 = true ∧
    (reg.addr ||| SINGLE ||| READ).testBit 6 = false := by
  refine ⟨?_, ?_, ?_⟩
  · rw [read_register_eq, h]
  · cases reg <;> decide
  · cases reg <;> decide

/-- Concrete instance of the C8 theorem on an echoing bus at the identity
register. -/
theorem read_register_single_frame_witness :
    L3gd20.read_register echoEnvU Register.WHO_AM_I s0 =
      (Except.ok (([Register.WHO_AM_I.addr ||| SINGLE ||| READ, 0] : List Nat).getD 1 0),
        { csHigh := true
          trace := s0.trace ++ [BusEvent.csLow,
            BusEvent.transfer [Register.WHO_AM_I.addr ||| SINGLE ||| READ, 0],
            BusEvent.csHigh] }) ∧
    (Register.WHO_AM_I.addr ||| SINGLE ||| READ).testBit 7 = true ∧
    (Register.WHO_AM_I.addr ||| SINGLE ||| READ).testBit 6 = false :=
  read_register_single_frame echoEnvU Register.WHO_AM_I s0 _ rfl

/-- C9: driver construction issues exactly one configuration write, of the
fixed bit pattern 0b0000_1111, to the primary control register `CTRL_REG1`;
it returns an error exactly when that single write's transport call fails,
and on failure no driver handle is returned — the result carries the error
alone. -/
theorem new_single_init_write {E : Type} (env : SpiEnv E) (s : DriverState) :
    (∀ u, env.write [Register.CTRL_REG1.addr ||| SINGLE ||| WRITE, 0b00001111] =
        Except.ok u →
      (L3gd20.new env s).1 = Except.ok () ∧
      writtenBytes (L3gd20.new env s).2.trace =
        writtenBytes s.trace ++
          [[Register.CTRL_REG1.addr ||| SINGLE ||| WRITE, 0b00001111]]) ∧
    (∀ e, env.write [Register.CTRL_REG1.addr ||| SINGLE ||| WRITE, 0b00001111] =
        Except.error e →
      (L3gd20.new env s).1 = Except.error e ∧
      writtenBytes (L3gd20.new env s).2.trace =
        writtenBytes s.trace ++
          [[Register.CTRL_REG1.addr ||| SINGLE ||| WRITE, 0b00001111]]) := by
  refine ⟨?_, ?_⟩ <;> intro a ha <;> unfold L3gd20.new <;> rw [write_register_eq, ha] <;>
    exact ⟨rfl, by simp [writtenBytes, List.filterMap_append]⟩

/-- Concrete instance of the C9 theorem: on an accepting bus construction
succeeds after the one write of 0b0000_1111 to CTRL_REG1; on a failing bus
it returns the transport error with the same single attempted write. -/
theorem new_single_init_write_witness :
    ((L3gd20.new echoEnvU s0).1 = Except.ok () ∧
      writtenBytes (L3gd20.new echoEnvU s0).2.trace =
        writtenBytes s0.trace ++
          [[Register.CTRL_REG1.addr ||| SINGLE ||| WRITE, 0b00001111]]) ∧
    ((L3gd20.new failEnvU s0).1 = Except.error () ∧
      writtenBytes (L3gd20.new failEnvU s0).2.trace =
        writtenBytes s0.trace ++
          [[Register.CTRL_REG1.addr ||| SINGLE ||| WRITE, 0b00001111]]) :=
  ⟨(new_single_init_write echoEnvU s0).1 () rfl,
    (new_single_init_write failEnvU s0).2 () rfl⟩

/-- C10: in every configuration setter, if the initial register read fails
with a transport error then no write transaction is issued at all: the
setter returns that error, the trace gains no write event, and the whole
operation performed only the failed read transaction. -/
theorem change_config_read_fail_no_write {E α : Type} (env : SpiEnv E) (reg : Register)
    (bv : BitValue α) (v : α) (s : DriverState) (e : E)
    (h : env.transfer [reg.addr ||| SINGLE ||| READ, 0] = Except.error e) :
    (L3gd20.change_config env reg bv v s).1 = Except.error e ∧
    writtenBytes (L3gd20.change_config env reg bv v s).2.trace = writtenBytes s.trace ∧
    (L3gd20.change_config env reg bv v s).2.trace =
      s.trace ++ [BusEvent.csLow, BusEvent.transfer [reg.addr ||| SINGLE ||| READ, 0]] := by
  unfold L3gd20.change_config
  rw [read_register_eq, h]
  exact ⟨rfl, by simp [writtenBytes, List.filterMap_append], rfl⟩

/-- Concrete instance of the C10 theorem: a data-rate setter on a failing bus
returns the transport error and issues no write. -/
theorem change_config_read_fail_no_write_witness :
    (L3gd20.change_config failEnvU Register.CTRL_REG1 Odr.bitValue Odr.Hz380 s0).1 =
      Except.error () ∧
    writtenBytes
        (L3gd20.change_config failEnvU Register.CTRL_REG1 Odr.bitValue Odr.Hz380 s0).2.trace =
      writtenBytes s0.trace ∧
    (L3gd20.change_config failEnvU Register.CTRL_REG1 Odr.bitValue Odr.Hz380 s0).2.trace =
      s0.trace ++ [BusEvent.csLow,
        BusEvent.transfer [Register.CTRL_REG1.addr ||| SINGLE ||| READ, 0]] :=
  change_config_read_fail_no_write failEnvU Register.CTRL_REG1 Odr.bitValue Odr.Hz380 s0 () rfl
